import Mathlib

/-!
Verification of the Erlang language-server supervisor
(`src/solidlsp/language_servers/erlang_language_server.py`).

The Python class is shallowly embedded: its mutable fields become a state
record, each notification handler becomes a state transformer returning the
new state and the log entries it emits, the startup readiness wait becomes a
function of the environment and of the (optional) time at which a readiness
signal sets the event, and the watchdog becomes a function of the outcomes of
the process-inspection primitives.  Durations are rationals (the Python
literals are exact decimals).
-/

namespace ErlangLS

/-- Severity levels of the `logging` module as used by the class. -/
inductive LogLevel
  | debug
  | info
  | warning
  | error
deriving DecidableEq

/-- One call to `self.logger.log(msg, level)`. -/
structure LogEntry where
  msg : String
  level : LogLevel
deriving DecidableEq

/-- The mutable fields of `ErlangLanguageServer` that the verified behaviour
touches: the two `threading.Event`s (modelled as booleans, `set` = `true`)
and the three telemetry fields initialised in `__init__`. -/
structure SupervisorState where
  server_ready : Bool
  completions_available : Bool
  request_count : Nat
  timeout_count : Nat
  last_timeout_time : ℚ
deriving DecidableEq

/-- State right after `__init__`: both events unset, the telemetry fields
set to 0 (lines 71 to 74 of the source). -/
def init_state : SupervisorState :=
  { server_ready := false
    completions_available := false
    request_count := 0
    timeout_count := 0
    last_timeout_time := 0 }

/-! ### String matching as Python `in` on `str.lower()` text -/

/-- Whether `pat` is a prefix of `l` (character lists). -/
def listStartsWith : List Char → List Char → Bool
  | _, [] => true
  | [], _ :: _ => false
  | c :: cs, p :: ps => c == p && listStartsWith cs ps

/-- Whether `pat` occurs as a contiguous sublist of `hay`: the semantics of
the Python expression `pat in hay` on strings. -/
def listContainsSub : List Char → List Char → Bool
  | [], pat => pat.isEmpty
  | c :: cs, pat => listStartsWith (c :: cs) pat || listContainsSub cs pat

/-- Python `pat in hay` for strings. -/
def strContains (hay pat : String) : Bool :=
  listContainsSub hay.data pat.data

/-- Python `s.lower()`.  The matching texts are ASCII, where lowering a
string is lowering each character. -/
def pyLower (s : String) : String :=
  ⟨s.data.map Char.toLower⟩

/-- The readiness phrase list of `window_log_message` (source lines 141 to
148). -/
def readiness_signals : List String :=
  ["Started Erlang LS", "server started", "initialized",
   "ready to serve requests", "compilation finished", "indexing complete"]

/-- The failure-indicating words checked at source line 158. -/
def failure_words : List String :=
  ["error", "failed", "timeout", "crash"]

/-- The completion-indicating words of `check_server_ready` (source line
171). -/
def completion_words : List String :=
  ["initialized", "ready", "complete"]

/-! ### Notification handlers -/

/-- The `window/logMessage` handler (source lines 134 to 159).  Input is the
optional `message` field of the notification (`msg.get("message", "")`).
The loop over `readiness_signals` with `break` sets the event on the first
match and logs once; it is rendered here with `any` for the state and the
detected-signal log emitted when some phrase matches. -/
def window_log_message (message? : Option String) (s : SupervisorState) :
    SupervisorState × List LogEntry :=
  let message_text := message?.getD ""
  let message_lower := pyLower message_text
  let log0 : LogEntry := ⟨"LSP: window/logMessage: " ++ message_text, .info⟩
  let matched := readiness_signals.any fun sg => strContains message_lower (pyLower sg)
  let s1 := if matched then { s with server_ready := true } else s
  let logs1 : List LogEntry :=
    if matched then
      [⟨"Erlang LS readiness signal detected: " ++ message_text, .info⟩]
    else []
  let logs2 : List LogEntry :=
    if failure_words.any (fun w => strContains message_lower w) then
      [⟨"Erlang LS potential issue: " ++ message_text, .warning⟩]
    else []
  (s1, log0 :: (logs1 ++ logs2))

/-- The `value` object of a `$/progress` notification as
`check_server_ready` reads it: `value.get("kind")` and
`value.get("message", "")`. -/
structure ProgressValue where
  kind : Option String
  message : Option String
deriving DecidableEq

/-- The `$/progress` handler `check_server_ready` (source lines 164 to 175):
on `kind == "end"` with a completion-indicating word in the message, log,
then set `server_ready` only when it is not already set. -/
def check_server_ready (value : ProgressValue) (s : SupervisorState) :
    SupervisorState × List LogEntry :=
  if value.kind == some "end" then
    let message := value.message.getD ""
    if completion_words.any (fun w => strContains (pyLower message) w) then
      let logs : List LogEntry :=
        [⟨"Erlang LS initialization progress completed", .info⟩]
      if s.server_ready then (s, logs)
      else ({ s with server_ready := true }, logs)
    else (s, [])
  else (s, [])

/-- The notifications and requests for which `_start_server` registers
handlers (source lines 177 to 183).  `logMessage` carries the optional
`message` field, `progress` the `value` object; the remaining three
notifications and the `client/registerCapability` request have no-op
handlers. -/
inductive Notification
  | logMessage (message : Option String)
  | progress (value : ProgressValue)
  | workDoneProgressCreate
  | workDoneProgress
  | publishDiagnostics
  | registerCapability
deriving DecidableEq

/-- Dispatch one incoming notification to its registered handler. -/
def handleNotification : Notification → SupervisorState → SupervisorState × List LogEntry
  | .logMessage m, s => window_log_message m s
  | .progress v, s => check_server_ready v s
  | .workDoneProgressCreate, s => (s, [])
  | .workDoneProgress, s => (s, [])
  | .publishDiagnostics, s => (s, [])
  | .registerCapability, s => (s, [])

/-! ### Environment detection and the timeout budgets -/

/-- The parts of the process environment the class reads: the `CI` and
`GITHUB_ACTIONS` variables (`os.getenv`, `none` = unset) and the platform
(`os.uname().sysname` behind `hasattr(os, "uname")`). -/
structure OsEnv where
  ci : Option String
  github_actions : Option String
  has_uname : Bool
  sysname : String
deriving DecidableEq

/-- The CI test of source lines 45 and 63 and 223. -/
def is_ci (e : OsEnv) : Bool :=
  e.ci == some "true" || e.github_actions == some "true"

/-- The macOS test of source line 225. -/
def is_macos (e : OsEnv) : Bool :=
  e.has_uname && e.sysname == "Darwin"

/-- The per-request timeout chosen in `__init__` (source lines 63 to 69),
in seconds. -/
def request_timeout (e : OsEnv) : ℚ :=
  if is_ci e then 45 else 60

/-- The readiness-wait timeout chosen in `_start_server` (source lines 222
to 236), in seconds. -/
def ready_timeout (e : OsEnv) : ℚ :=
  if is_ci e && is_macos e then 240
  else if is_ci e then 180
  else 60

/-- The settling delay of the signalled branch (source line 244). -/
def settling_time (e : OsEnv) : ℚ :=
  if is_ci e then 15 else 5

/-- The settling delay of the forced branch (source line 256). -/
def basic_settling_time (e : OsEnv) : ℚ :=
  if is_ci e then 20 else 10

/-! ### The readiness wait of `_start_server` -/

/-- Semantics of `threading.Event.wait(timeout)` for the `server_ready`
event: `signalTime` is the instant, measured from the start of the wait, at
which some handler sets the event (`none` when no signal ever sets it); the
wait returns `true` exactly when that happens within the timeout. -/
def waitOutcome (signalTime : Option ℚ) (timeout : ℚ) : Bool :=
  match signalTime with
  | some t => decide (t ≤ timeout)
  | none => false

/-- The observable steps of `_start_server` after the handshake (source
lines 240 to 259): log lines, the forced `server_ready.set()` of the
timeout branch tagged with the instant it happens, and the settling sleep. -/
inductive StartAction
  | loggedReady
  | loggedAllowingSettle
  | loggedSettleComplete
  | loggedTimeoutWarning
  | loggedAllowingBasicSettle
  | loggedBasicComplete
  | forcedReadySet (atTime : ℚ)
  | sleptSettling (seconds : ℚ)
deriving DecidableEq

/-- Whether a start action is the forced `server_ready.set()`. -/
def isForcedSet : StartAction → Bool
  | .forcedReadySet _ => true
  | _ => false

/-- The readiness phase of `_start_server` (source lines 240 to 259): wait
on `server_ready` with the environment's timeout; on success sleep the
signalled settling delay, otherwise log a warning, force-set the event (the
wait returns once the full timeout has elapsed, hence at instant
`ready_timeout e`) and sleep the longer basic settling delay. -/
def readinessPhase (e : OsEnv) (signalTime : Option ℚ) : List StartAction :=
  if waitOutcome signalTime (ready_timeout e) then
    [.loggedReady, .loggedAllowingSettle,
     .sleptSettling (settling_time e), .loggedSettleComplete]
  else
    [.loggedTimeoutWarning, .forcedReadySet (ready_timeout e),
     .loggedAllowingBasicSettle, .sleptSettling (basic_settling_time e),
     .loggedBasicComplete]

/-! ### The handshake of `_start_server` -/

/-- Outcome of the transport call `self.server.send.initialize(params)`:
a response object, carrying whether a `capabilities` key is present and the
list of its keys, or a raised exception. -/
inductive InitOutcome
  | ok (hasCapabilities : Bool) (capabilityKeys : List String)
  | raised (e : String)
deriving DecidableEq

/-- The observable steps of the handshake block (source lines 205 to 220). -/
inductive HsAction
  | sentInitRequest
  | loggedCapabilities (keys : List String)
  | sentInitializedNote
  | setCompletionsAvailable
  | loggedInitSuccess
  | loggedInitError (e : String)
deriving DecidableEq

/-- The `try` and `except` block around the initialize call (source lines
206 to 220): on a response, log the capability keys when present, send the
`initialized` notification, set `completions_available` and log success; on
a raised exception, log the error, set `completions_available` and re-raise
(the second component is the propagated exception, `none` = returned
normally). -/
def handshake (o : InitOutcome) : List HsAction × Option String :=
  match o with
  | .ok hasCaps keys =>
      ([.sentInitRequest]
        ++ (if hasCaps then [.loggedCapabilities keys] else [])
        ++ [.sentInitializedNote, .setCompletionsAvailable, .loggedInitSuccess],
       none)
  | .raised e =>
      ([.sentInitRequest, .loggedInitError e, .setCompletionsAvailable],
       some e)

/-! ### The request overrides and the telemetry fields -/

/-- Outcome of the superclass call that a request override delegates to: a
result value, or a raised exception (a request-timeout error included). -/
inductive ReqOutcome
  | ok (result : String)
  | raised (e : String)
deriving DecidableEq

/-- The `request_containing_symbol` override (source lines 289 to 301):
delegate to the superclass, log an info line when the elapsed time exceeds
10 seconds, log a warning and re-raise on an exception.  `outcome` is the
superclass call's outcome and `elapsed` the measured wall time; the first
component is the returned value or the re-raised exception. -/
def request_containing_symbol (outcome : ReqOutcome) (elapsed : ℚ)
    (s : SupervisorState) :
    Except String String × SupervisorState × List LogEntry :=
  match outcome with
  | .ok r =>
      (.ok r, s,
       if 10 < elapsed then
         [⟨"Slow Erlang LS containing symbol request", .info⟩]
       else [])
  | .raised e =>
      (.error e, s,
       [⟨"Erlang LS containing symbol request failed", .warning⟩])

/-- The `request_referencing_symbols` override (source lines 303 to 315),
identical in shape to `request_containing_symbol`. -/
def request_referencing_symbols (outcome : ReqOutcome) (elapsed : ℚ)
    (s : SupervisorState) :
    Except String String × SupervisorState × List LogEntry :=
  match outcome with
  | .ok r =>
      (.ok r, s,
       if 10 < elapsed then
         [⟨"Slow Erlang LS referencing symbols request", .info⟩]
       else [])
  | .raised e =>
      (.error e, s,
       [⟨"Erlang LS referencing symbols request failed", .warning⟩])

/-! ### The watchdog `_force_kill_if_stuck` -/

/-- Exceptions the process primitives can raise: `psutil.NoSuchProcess`
(the only one the inner `except` catches) or anything else. -/
inductive WdErr
  | noSuchProcess
  | other (msg : String)
deriving DecidableEq

/-- Behaviour of the process-inspection and termination primitives as
`_force_kill_if_stuck` encounters them (source lines 84 to 106): the
`hasattr` test, the truthiness of `self.server.process`, and the outcome
of each call that may raise. -/
structure WatchdogEnv where
  hasProcessAttr : Bool
  processTruthy : Bool
  pid : Nat
  pidExists : Except WdErr Bool
  processCtor : Except WdErr Unit
  cpuSample : Except WdErr ℚ
  terminateRes : Except WdErr Unit
  isRunningRes : Except WdErr Bool
  killRes : Except WdErr Unit

/-- The observable steps of `_force_kill_if_stuck`. -/
inductive WdAction
  | loggedCpu (percent : ℚ)
  | loggedForceKillWarning
  | calledTerminate
  | slept2
  | calledKill
  | loggedErrorDebug
deriving DecidableEq

/-- The inner `try` body (source lines 98 to 102): `process.terminate()`,
`time.sleep(2)`, then `process.kill()` only when `process.is_running()`.
Returns the actions performed up to a raised exception, and the exception. -/
def wdInner (env : WatchdogEnv) : List WdAction × Except WdErr Unit :=
  match env.terminateRes with
  | .error e => ([.calledTerminate], .error e)
  | .ok _ =>
    match env.isRunningRes with
    | .error e => ([.calledTerminate, .slept2], .error e)
    | .ok running =>
      if running then
        match env.killRes with
        | .error e => ([.calledTerminate, .slept2, .calledKill], .error e)
        | .ok _ => ([.calledTerminate, .slept2, .calledKill], .ok ())
      else ([.calledTerminate, .slept2], .ok ())

/-- The inner `except psutil.NoSuchProcess: pass` (source lines 103 to
104): only that exception is swallowed. -/
def wdInnerCaught (env : WatchdogEnv) : List WdAction × Except WdErr Unit :=
  match wdInner env with
  | (tr, .error .noSuchProcess) => (tr, .ok ())
  | r => r

/-- The body of the outer `try` (source lines 87 to 104): guard on the
process attribute and truthiness, `psutil.pid_exists`, `psutil.Process`,
`cpu_percent`, then on utilisation below 1 percent the warning log and the
inner termination block. -/
def wdBody (env : WatchdogEnv) : List WdAction × Except WdErr Unit :=
  if env.hasProcessAttr && env.processTruthy then
    match env.pidExists with
    | .error e => ([], .error e)
    | .ok false => ([], .ok ())
    | .ok true =>
      match env.processCtor with
      | .error e => ([], .error e)
      | .ok _ =>
        match env.cpuSample with
        | .error e => ([], .error e)
        | .ok percent =>
          if percent < 1 then
            let inner := wdInnerCaught env
            (.loggedCpu percent :: .loggedForceKillWarning :: inner.1, inner.2)
          else ([.loggedCpu percent], .ok ())
  else ([], .ok ())

/-- `_force_kill_if_stuck` (source lines 84 to 106): the outer
`except Exception` swallows every exception of the body and logs it at
debug severity, so the second component is always `Except.ok`. -/
def force_kill_if_stuck (env : WatchdogEnv) : List WdAction × Except WdErr Unit :=
  match wdBody env with
  | (tr, .error _) => (tr ++ [.loggedErrorDebug], .ok ())
  | r => r

/-! ### Step sequences over the readiness flag -/

/-- One event that can touch `server_ready` during the supervisor's life: a
dispatched notification, or the forced `server_ready.set()` of the
`_start_server` timeout branch (source line 253). -/
inductive Step
  | notif (n : Notification)
  | forcedSet
deriving DecidableEq

/-- Apply one step to the supervisor state. -/
def stepState : Step → SupervisorState → SupervisorState
  | .notif n, s => (handleNotification n s).1
  | .forcedSet, s => { s with server_ready := true }

/-- The `server_ready` values observed along a run: the initial value, then
the value after each step. -/
def readyTrace : List Step → SupervisorState → List Bool
  | [], s => [s.server_ready]
  | st :: rest, s => s.server_ready :: readyTrace rest (stepState st s)

/-- The number of not-ready to ready transitions in a Boolean trace. -/
def flips : List Bool → Nat
  | a :: b :: t => (if a = false ∧ b = true then 1 else 0) + flips (b :: t)
  | _ => 0

/-- A local environment: neither CI variable set. -/
def envLocal : OsEnv := ⟨none, none, true, "Linux"⟩

/-- A CI environment on Linux. -/
def envCI : OsEnv := ⟨some "true", none, true, "Linux"⟩

/-- A CI environment on macOS. -/
def envCIMac : OsEnv := ⟨some "true", none, true, "Darwin"⟩

/-! ### C2 and C5: the handshake -/

/-- C2: for every outcome of the initialize call, success or raised
exception, the `completions_available` gate is set before the handshake
block returns or propagates the error. -/
theorem C2_capabilities_gate_always_set :
    ∀ (o : InitOutcome), HsAction.setCompletionsAvailable ∈ (handshake o).1 := by
  intro o
  cases o with
  | ok hasCaps keys => cases hasCaps <;> simp [handshake]
  | raised e => simp [handshake]

/-- C5, counterexample: when the initialize call raises, the `initialized`
notification is never sent, contradicting the claim that it is sent
unconditionally on failure as well. -/
theorem C5_initialized_note_counterexample :
    HsAction.sentInitializedNote ∉
      (handshake (.raised "transport rejected the initialize request")).1 := by
  simp [handshake]

/-- C5, amended: the `initialized` notification is sent exactly when the
initialize call returns successfully (whether or not the response carries
capabilities); when the call raises, the notification is not sent, the gate
is still set and the exception propagates. -/
theorem C5_initialized_note_only_on_success :
    (∀ (hasCaps : Bool) (keys : List String),
        HsAction.sentInitializedNote ∈ (handshake (.ok hasCaps keys)).1 ∧
        (handshake (.ok hasCaps keys)).2 = none) ∧
    (∀ (e : String),
        HsAction.sentInitializedNote ∉ (handshake (.raised e)).1 ∧
        (handshake (.raised e)).2 = some e ∧
        HsAction.setCompletionsAvailable ∈ (handshake (.raised e)).1) := by
  constructor
  · intro hasCaps keys
    cases hasCaps <;> simp [handshake]
  · intro e
    simp [handshake]

/-! ### C7 and C8: the timeout budgets and settling delays -/

/-- C7: the per-request timeout is 45 seconds under CI and 60 locally,
strictly shorter under CI; the readiness-wait timeout is 240 seconds for CI
on macOS, 180 for other CI and 60 locally, strictly ordered. -/
theorem C7_timeout_budgets :
    (∀ e : OsEnv, is_ci e = true → request_timeout e = 45) ∧
    (∀ e : OsEnv, is_ci e = false → request_timeout e = 60) ∧
    (∀ eci eloc : OsEnv, is_ci eci = true → is_ci eloc = false →
        request_timeout eci < request_timeout eloc) ∧
    (∀ e : OsEnv, is_ci e = true → is_macos e = true → ready_timeout e = 240) ∧
    (∀ e : OsEnv, is_ci e = true → is_macos e = false → ready_timeout e = 180) ∧
    (∀ e : OsEnv, is_ci e = false → ready_timeout e = 60) ∧
    (∀ eloc eci emac : OsEnv,
        is_ci eloc = false → is_ci eci = true → is_macos eci = false →
        is_ci emac = true → is_macos emac = true →
        ready_timeout eloc < ready_timeout eci ∧
        ready_timeout eci < ready_timeout emac) := by
  refine ⟨?_, ?_, ?_, ?_, ?_, ?_, ?_⟩ <;>
    intros <;>
    simp_all [request_timeout, ready_timeout] <;>
    norm_num

/-- C8: after readiness the startup routine sleeps a settling delay taken
from the branch it is in; the forced-timeout delay strictly exceeds the
signalled delay in every environment (20 vs 15 under CI, 10 vs 5 locally),
and for each branch the CI delay strictly exceeds the local one. -/
theorem C8_settling_delays :
    (∀ (e : OsEnv) (st : Option ℚ), waitOutcome st (ready_timeout e) = true →
        StartAction.sleptSettling (settling_time e) ∈ readinessPhase e st) ∧
    (∀ (e : OsEnv) (st : Option ℚ), waitOutcome st (ready_timeout e) = false →
        StartAction.sleptSettling (basic_settling_time e) ∈ readinessPhase e st) ∧
    (∀ e : OsEnv, settling_time e < basic_settling_time e) ∧
    (∀ e : OsEnv, is_ci e = true →
        settling_time e = 15 ∧ basic_settling_time e = 20) ∧
    (∀ e : OsEnv, is_ci e = false →
        settling_time e = 5 ∧ basic_settling_time e = 10) ∧
    (∀ eci eloc : OsEnv, is_ci eci = true → is_ci eloc = false →
        settling_time eloc < settling_time eci ∧
        basic_settling_time eloc < basic_settling_time eci) := by
  refine ⟨?_, ?_, ?_, ?_, ?_, ?_⟩
  · intro e st h
    simp [readinessPhase, h]
  · intro e st h
    simp [readinessPhase, h]
  · intro e
    by_cases h : is_ci e <;> simp [settling_time, basic_settling_time, h] <;> norm_num
  · intro e h
    simp [settling_time, basic_settling_time, h]
  · intro e h
    simp [settling_time, basic_settling_time, h]
  · intro eci eloc h1 h2
    simp [settling_time, basic_settling_time, h1, h2]
    norm_num

/-! ### C4: the forced readiness transition -/

/-- C4: when no readiness signal sets the event within the readiness-wait
timeout, the startup routine force-sets it exactly once, at the instant the
timeout elapses and not before. -/
theorem C4_forced_ready_after_timeout (e : OsEnv) (st : Option ℚ)
    (h : waitOutcome st (ready_timeout e) = false) :
    (readinessPhase e st).countP isForcedSet = 1 ∧
    (∀ t : ℚ, StartAction.forcedReadySet t ∈ readinessPhase e st →
        ready_timeout e ≤ t) ∧
    StartAction.forcedReadySet (ready_timeout e) ∈ readinessPhase e st := by
  refine ⟨?_, ?_, ?_⟩
  · simp [readinessPhase, h, List.countP_cons, isForcedSet]
  · intro t ht
    simp [readinessPhase, h] at ht
    simp [ht]
  · simp [readinessPhase, h]

/-- Witness for C4 at a concrete input: a local environment where no signal
ever arrives. -/
theorem C4_forced_ready_witness :
    waitOutcome none (ready_timeout envLocal) = false ∧
    (readinessPhase envLocal none).countP isForcedSet = 1 :=
  ⟨rfl, (C4_forced_ready_after_timeout envLocal none rfl).1⟩

/-! ### C1: the request telemetry -/

/-- C1, counterexample: a containing-symbol call whose transport raises
after 50 seconds, past the 45-second CI per-request budget, leaves the
total-request counter and the timeout counter of the freshly constructed
supervisor at 0; neither counter is incremented. -/
theorem C1_timeout_counter_counterexample :
    request_timeout envCI < 50 ∧
    (request_containing_symbol (.raised "RequestTimeoutError") 50
        init_state).2.1.request_count = init_state.request_count ∧
    (request_containing_symbol (.raised "RequestTimeoutError") 50
        init_state).2.1.timeout_count = init_state.timeout_count ∧
    ¬ (request_containing_symbol (.raised "RequestTimeoutError") 50
        init_state).2.1.timeout_count = init_state.timeout_count + 1 := by
  refine ⟨?_, rfl, rfl, by simp [request_containing_symbol, init_state]⟩
  simp [request_timeout, envCI, is_ci]
  norm_num

/-- C1, amended: the request overrides never modify the supervisor state
(the telemetry counters included); a call whose superclass call raises
(a request timeout included) re-raises the same exception, and a call that
returns passes its result through. -/
theorem C1_telemetry_untouched :
    (∀ (o : ReqOutcome) (t : ℚ) (s : SupervisorState),
        (request_containing_symbol o t s).2.1 = s ∧
        (request_referencing_symbols o t s).2.1 = s) ∧
    (∀ (e : String) (t : ℚ) (s : SupervisorState),
        (request_containing_symbol (.raised e) t s).1 = .error e ∧
        (request_referencing_symbols (.raised e) t s).1 = .error e) ∧
    (∀ (r : String) (t : ℚ) (s : SupervisorState),
        (request_containing_symbol (.ok r) t s).1 = .ok r ∧
        (request_referencing_symbols (.ok r) t s).1 = .ok r) := by
  refine ⟨?_, ?_, ?_⟩
  · intro o t s
    cases o <;> exact ⟨rfl, rfl⟩
  · intro e t s
    exact ⟨rfl, rfl⟩
  · intro r t s
    exact ⟨rfl, rfl⟩

/-! ### C9: the watchdog -/

/-- C9: `_force_kill_if_stuck` swallows every exception of the inspection
and termination primitives (it always returns normally); and when the
process attribute is present and truthy, the pid exists, the process object
is obtained and the sampled CPU utilisation is below 1 percent, it calls
terminate, sleeps the 2-second grace period, and calls kill exactly when
the process is still running afterwards. -/
theorem C9_watchdog_never_raises_and_escalation :
    (∀ env : WatchdogEnv, (force_kill_if_stuck env).2 = Except.ok ()) ∧
    (∀ (env : WatchdogEnv) (percent : ℚ),
        env.hasProcessAttr = true → env.processTruthy = true →
        env.pidExists = .ok true → env.processCtor = .ok () →
        env.cpuSample = .ok percent → percent < 1 →
        env.terminateRes = .ok () →
        WdAction.calledTerminate ∈ (force_kill_if_stuck env).1 ∧
        WdAction.slept2 ∈ (force_kill_if_stuck env).1 ∧
        (env.isRunningRes = .ok true →
          WdAction.calledKill ∈ (force_kill_if_stuck env).1) ∧
        (env.isRunningRes = .ok false →
          WdAction.calledKill ∉ (force_kill_if_stuck env).1)) := by
  constructor
  · intro env
    rcases hb : wdBody env with ⟨tr, r⟩
    cases r <;> simp [force_kill_if_stuck, hb]
  · intro env percent h1 h2 h3 h4 h5 h6 h7
    have hlt : (percent < 1) = True := by simp [h6]
    rcases hrun : env.isRunningRes with e | running
    · have hb : wdBody env =
          (.loggedCpu percent :: .loggedForceKillWarning ::
            (wdInnerCaught env).1, (wdInnerCaught env).2) := by
        simp [wdBody, h1, h2, h3, h4, h5, hlt]
      have hin : wdInner env = ([.calledTerminate, .slept2], .error e) := by
        simp [wdInner, h7, hrun]
      cases e with
      | noSuchProcess =>
        have hc : wdInnerCaught env = ([.calledTerminate, .slept2], .ok ()) := by
          simp [wdInnerCaught, hin]
        simp [force_kill_if_stuck, hb, hc]
      | other m =>
        have hc : wdInnerCaught env =
            ([.calledTerminate, .slept2], .error (.other m)) := by
          simp [wdInnerCaught, hin]
        simp [force_kill_if_stuck, hb, hc]
    · have hb : wdBody env =
          (.loggedCpu percent :: .loggedForceKillWarning ::
            (wdInnerCaught env).1, (wdInnerCaught env).2) := by
        simp [wdBody, h1, h2, h3, h4, h5, hlt]
      cases running with
      | true =>
        rcases hk : env.killRes with ek | u
        · have hin : wdInner env =
              ([.calledTerminate, .slept2, .calledKill], .error ek) := by
            simp [wdInner, h7, hrun, hk]
          cases ek with
          | noSuchProcess =>
            have hc : wdInnerCaught env =
                ([.calledTerminate, .slept2, .calledKill], .ok ()) := by
              simp [wdInnerCaught, hin]
            simp [force_kill_if_stuck, hb, hc]
          | other m =>
            have hc : wdInnerCaught env =
                ([.calledTerminate, .slept2, .calledKill], .error (.other m)) := by
              simp [wdInnerCaught, hin]
            simp [force_kill_if_stuck, hb, hc]
        · have hin : wdInner env =
              ([.calledTerminate, .slept2, .calledKill], .ok ()) := by
            simp [wdInner, h7, hrun, hk]
          have hc : wdInnerCaught env =
              ([.calledTerminate, .slept2, .calledKill], .ok ()) := by
            simp [wdInnerCaught, hin]
          simp [force_kill_if_stuck, hb, hc]
      | false =>
        have hin : wdInner env = ([.calledTerminate, .slept2], .ok ()) := by
          simp [wdInner, h7, hrun]
        have hc : wdInnerCaught env = ([.calledTerminate, .slept2], .ok ()) := by
          simp [wdInnerCaught, hin]
        simp [force_kill_if_stuck, hb, hc]

/-- Witness for C9 at a concrete input: a present, alive process at 0
percent CPU whose terminate succeeds and which is no longer running after
the grace period, so no kill is issued. -/
theorem C9_watchdog_witness :
    WdAction.calledTerminate ∈
      (force_kill_if_stuck
        ⟨true, true, 1234, .ok true, .ok (), .ok 0, .ok (), .ok false, .ok ()⟩).1 ∧
    WdAction.calledKill ∉
      (force_kill_if_stuck
        ⟨true, true, 1234, .ok true, .ok (), .ok 0, .ok (), .ok false, .ok ()⟩).1 :=
  ⟨(C9_watchdog_never_raises_and_escalation.2
      ⟨true, true, 1234, .ok true, .ok (), .ok 0, .ok (), .ok false, .ok ()⟩ 0
      rfl rfl rfl rfl rfl (by norm_num) rfl).1,
   (C9_watchdog_never_raises_and_escalation.2
      ⟨true, true, 1234, .ok true, .ok (), .ok 0, .ok (), .ok false, .ok ()⟩ 0
      rfl rfl rfl rfl rfl (by norm_num) rfl).2.2.2 rfl⟩

/-! ### C6: the two readiness channels -/

/-- C6: a primary-channel log message whose lowered text contains a
readiness phrase sets `server_ready` (no secondary message involved); a
secondary progress notification with kind `end` and a completion word sets
it when it is not already set; and a secondary notification arriving when
the state is already ready leaves the state unchanged. -/
theorem C6_two_channel_readiness :
    (∀ (m : Option String) (s : SupervisorState),
        (readiness_signals.any fun sg =>
            strContains (pyLower (m.getD "")) (pyLower sg)) = true →
        (window_log_message m s).1.server_ready = true) ∧
    (∀ (v : ProgressValue) (s : SupervisorState),
        s.server_ready = false → v.kind = some "end" →
        (completion_words.any fun w =>
            strContains (pyLower (v.message.getD "")) w) = true →
        (check_server_ready v s).1.server_ready = true) ∧
    (∀ (v : ProgressValue) (s : SupervisorState),
        s.server_ready = true → (check_server_ready v s).1 = s) := by
  refine ⟨?_, ?_, ?_⟩
  · intro m s h
    simp [window_log_message, h]
  · intro v s hs hk hw
    simp [check_server_ready, hk, hw, hs]
  · intro v s hs
    by_cases hk : v.kind == some "end"
    · by_cases hw : (completion_words.any fun w =>
          strContains (pyLower (v.message.getD "")) w) = true
      · simp [check_server_ready, hk, hw, hs]
      · simp [check_server_ready, hk, hw]
    · simp [check_server_ready, hk]

/-- Witness for C6 at concrete inputs: a primary log line, a secondary
progress end message on a not-ready state, and the same secondary message
on an already-ready state. -/
theorem C6_two_channel_witness :
    (window_log_message (some "Started Erlang LS") init_state).1.server_ready = true ∧
    (check_server_ready ⟨some "end", some "indexing is now complete"⟩
        init_state).1.server_ready = true ∧
    (check_server_ready ⟨some "end", some "indexing is now complete"⟩
        { init_state with server_ready := true }).1 =
      { init_state with server_ready := true } :=
  ⟨C6_two_channel_readiness.1 (some "Started Erlang LS") init_state (by decide),
   C6_two_channel_readiness.2.1 ⟨some "end", some "indexing is now complete"⟩
     init_state rfl rfl (by decide),
   C6_two_channel_readiness.2.2 ⟨some "end", some "indexing is now complete"⟩
     { init_state with server_ready := true } rfl⟩

/-! ### C10: substring matching and failure logging -/

/-- C10: readiness matching is substring containment on the lowered text, so
a message whose text contains a phrase inside a longer word (here the word
uninitialized, which contains initialized) sets `server_ready`; and a
message containing both a readiness phrase and a failure word sets
`server_ready` and is also logged as a warning, the failure check never
blocking the transition. -/
theorem C10_substring_matching_and_failure_logging :
    (window_log_message (some "Cannot serve: project uninitialized")
        init_state).1.server_ready = true ∧
    (∀ (m : Option String) (s : SupervisorState),
        (readiness_signals.any fun sg =>
            strContains (pyLower (m.getD "")) (pyLower sg)) = true →
        (failure_words.any fun w =>
            strContains (pyLower (m.getD "")) w) = true →
        (window_log_message m s).1.server_ready = true ∧
        LogEntry.mk ("Erlang LS potential issue: " ++ m.getD "") .warning
          ∈ (window_log_message m s).2) := by
  constructor
  · decide
  · intro m s hsig hfail
    constructor
    · simp [window_log_message, hsig]
    · simp [window_log_message, hsig, hfail]

/-- Witness for C10 at a concrete input: a single message holding both the
readiness phrase initialized and the failure word error. -/
theorem C10_substring_witness :
    (window_log_message (some "initialized with error")
        init_state).1.server_ready = true ∧
    LogEntry.mk ("Erlang LS potential issue: " ++ "initialized with error") .warning
      ∈ (window_log_message (some "initialized with error") init_state).2 :=
  C10_substring_matching_and_failure_logging.2
    (some "initialized with error") init_state (by decide) (by decide)

/-! ### C3: monotonicity of the readiness flag -/

/-- No step, handler or forced set, ever clears `server_ready`. -/
theorem stepState_ready_mono (st : Step) (s : SupervisorState)
    (h : s.server_ready = true) : (stepState st s).server_ready = true := by
  cases st with
  | forcedSet => rfl
  | notif n =>
    cases n with
    | logMessage m =>
      simp only [stepState, handleNotification, window_log_message]
      split <;> simp [h]
    | progress v =>
      simp only [stepState, handleNotification, check_server_ready]
      split
      · split
        · simp [h]
        · exact h
      · exact h
    | workDoneProgressCreate => exact h
    | workDoneProgress => exact h
    | publishDiagnostics => exact h
    | registerCapability => exact h

/-- The first element of a run trace is the initial flag value. -/
theorem readyTrace_head (steps : List Step) (s : SupervisorState) :
    (readyTrace steps s).head? = some s.server_ready := by
  cases steps <;> rfl

/-- Along any run, the readiness flag never falls back from ready. -/
theorem chain_readyTrace : ∀ (steps : List Step) (s : SupervisorState),
    List.Chain' (fun a b : Bool => a = true → b = true) (readyTrace steps s)
  | [], s => by simp [readyTrace]
  | st :: rest, s => by
    rw [readyTrace, List.chain'_cons']
    refine ⟨?_, chain_readyTrace rest (stepState st s)⟩
    intro b hb
    rw [readyTrace_head] at hb
    cases hb
    exact stepState_ready_mono st s

/-- A monotone Boolean trace that starts at `true` has no flip at all. -/
theorem flips_of_true : ∀ (t : List Bool),
    List.Chain' (fun a b : Bool => a = true → b = true) (true :: t) →
    flips (true :: t) = 0
  | [], _ => rfl
  | b :: t, h => by
    rw [List.chain'_cons] at h
    have hb : b = true := h.1 rfl
    subst hb
    have ih := flips_of_true t h.2
    simp only [flips] at ih ⊢
    simpa using ih

/-- A monotone Boolean trace flips from false to true at most once. -/
theorem flips_le_one : ∀ (l : List Bool),
    List.Chain' (fun a b : Bool => a = true → b = true) l → flips l ≤ 1
  | [], _ => Nat.zero_le 1
  | [_], _ => Nat.zero_le 1
  | a :: b :: t, h => by
    rw [List.chain'_cons] at h
    cases a with
    | true =>
      have hb : b = true := h.1 rfl
      subst hb
      have h0 := flips_of_true t h.2
      simp only [flips]
      rw [h0]
      simp
    | false =>
      cases b with
      | true =>
        have h0 := flips_of_true t h.2
        simp only [flips]
        rw [h0]
        simp
      | false =>
        have ih := flips_le_one (false :: t) h.2
        simp only [flips]
        simpa using ih

/-- C3: along every sequence of dispatched notifications and startup steps,
from any state, the readiness flag is monotone (no step moves it from ready
back to not-ready) and transitions from not-ready to ready at most once. -/
theorem C3_ready_monotone_at_most_once :
    ∀ (steps : List Step) (s : SupervisorState),
      List.Chain' (fun a b : Bool => a = true → b = true) (readyTrace steps s) ∧
      flips (readyTrace steps s) ≤ 1 := fun steps s =>
  ⟨chain_readyTrace steps s, flips_le_one _ (chain_readyTrace steps s)⟩

end ErlangLS
